import Mathlib

/-!
Shallow embedding of `skills/security-audit/scripts/security_scan.py`.

The script shells out to four security analyzers (bandit, pip-audit, safety,
detect-secrets), normalizes their JSON stdout into `ScanResult` records,
renders a textual report, optionally serializes a structured report, and
derives the process exit code from finding severities.

Modelling conventions:
- A JSON value decoded by `json.loads` is a `Json` (numbers restricted to
  integers; the severity policy and all report logic are number-agnostic).
- A subprocess invocation outcome is a `ProcOutcome`: the executable was
  missing (`FileNotFoundError`), `subprocess.run` raised some other
  exception (carrying `str(e)`), or the child completed with an exit code,
  a stdout classified as a `RawOut`, and a stderr text.
- `RawOut` quotients the stdout string to exactly what the script observes:
  emptiness (`if result.stdout`), and the outcome of `json.loads` on a
  non-empty string (`invalid e` carries `str` of the raised
  `json.JSONDecodeError`).
- Python dynamic attribute/type errors (`.get`/`.upper`/iteration on a value
  of the wrong type) are modelled with `Except String`; inside a runner's
  `try` block they are caught (`except Exception as e`), in `main` they are
  uncaught and terminate the interpreter with exit status 1.
- `str.upper` is modelled on ASCII (`pyStrUpper`); tool severities are ASCII
  words.
-/

inductive Json where
  | null : Json
  | bool : Bool → Json
  | num : Int → Json
  | str : String → Json
  | arr : List Json → Json
  | obj : List (String × Json) → Json

/-- Python type name of a JSON-decoded value, as used in dynamic error
messages such as AttributeError text. -/
def pyTypeName : Json → String
  | .null => "NoneType"
  | .bool _ => "bool"
  | .num _ => "int"
  | .str _ => "str"
  | .arr _ => "list"
  | .obj _ => "dict"

/-- Message of a Python AttributeError, as produced by `str(e)`. -/
def pyAttrErr (j : Json) (attr : String) : String :=
  String.singleton (Char.ofNat 39) ++ pyTypeName j ++
    String.singleton (Char.ofNat 39) ++ " object has no attribute " ++
    String.singleton (Char.ofNat 39) ++ attr ++ String.singleton (Char.ofNat 39)

/-- Python truthiness of a JSON-decoded value (`if x:` / `if not x:`). -/
def pyTruthy : Json → Bool
  | .null => false
  | .bool b => b
  | .num n => n != 0
  | .str s => s ≠ ""
  | .arr xs => !xs.isEmpty
  | .obj fs => !fs.isEmpty

/-- Python `len(x)` on a JSON-decoded value; TypeError on values without a
length. -/
def pyLen : Json → Except String Nat
  | .str s => .ok s.length
  | .arr xs => .ok xs.length
  | .obj fs => .ok fs.length
  | j => .error ("object of type " ++ String.singleton (Char.ofNat 39) ++
      pyTypeName j ++ String.singleton (Char.ofNat 39) ++ " has no len()")

/-- Python `x[:10]` followed by iteration over the slice, on a JSON-decoded
value: lists slice to their first 10 elements, strings to their first 10
characters (each iterated as a one-character string); other values raise
TypeError. -/
def pySliceIter10 : Json → Except String (List Json)
  | .arr xs => .ok (xs.take 10)
  | .str s => .ok ((s.toList.take 10).map (fun c => Json.str (String.singleton c)))
  | j => .error (String.singleton (Char.ofNat 39) ++ pyTypeName j ++
      String.singleton (Char.ofNat 39) ++ " object is not subscriptable")

/-- Python `for x in v:` on a JSON-decoded value: lists yield elements,
strings yield one-character strings, dicts yield their keys; other values
raise TypeError. -/
def pyIterate : Json → Except String (List Json)
  | .arr xs => .ok xs
  | .str s => .ok (s.toList.map (fun c => Json.str (String.singleton c)))
  | .obj fs => .ok (fs.map (fun kv => Json.str kv.1))
  | j => .error (String.singleton (Char.ofNat 39) ++ pyTypeName j ++
      String.singleton (Char.ofNat 39) ++ " object is not iterable")

/-- ASCII uppercasing of one character. -/
def pyCharUpper (c : Char) : Char :=
  if c.isLower then Char.ofNat (c.toNat - 32) else c

/-- Python `s.upper()` on a string (ASCII). -/
def pyStrUpper (s : String) : String :=
  String.mk (s.toList.map pyCharUpper)

/-- Python `s.upper()` on a JSON-decoded value: AttributeError unless the
value is a string. -/
def pyUpper : Json → Except String String
  | .str s => .ok (pyStrUpper s)
  | j => .error (pyAttrErr j "upper")

/-- Lookup in a decoded JSON object (a Python dict: keys unique, insertion
order preserved by `json.loads`). -/
def objGet (fs : List (String × Json)) (key : String) : Option Json :=
  fs.lookup key

/-- Python `d.get(key, default)` on a dict represented as a field list. -/
def objGetD (fs : List (String × Json)) (key : String) (dflt : Json) : Json :=
  (objGet fs key).getD dflt

/-- Python `x.get(key, default)` on an arbitrary JSON-decoded value:
AttributeError unless the value is a dict. -/
def pyDictGetD (j : Json) (key : String) (dflt : Json) : Except String Json :=
  match j with
  | .obj fs => .ok (objGetD fs key dflt)
  | other => .error (pyAttrErr other "get")

/-- Escape one character for Python `repr` of a string with the given quote
character. -/
def pyEscChar (quote : Char) (c : Char) : String :=
  if c = Char.ofNat 92 then
    String.singleton (Char.ofNat 92) ++ String.singleton (Char.ofNat 92)
  else if c = quote then
    String.singleton (Char.ofNat 92) ++ String.singleton c
  else if c = Char.ofNat 10 then String.singleton (Char.ofNat 92) ++ "n"
  else if c = Char.ofNat 13 then String.singleton (Char.ofNat 92) ++ "r"
  else if c = Char.ofNat 9 then String.singleton (Char.ofNat 92) ++ "t"
  else String.singleton c

/-- Python `repr` of a string (printable characters; single quotes preferred,
double quotes when the string contains a single quote but no double quote). -/
def pyStrRepr (s : String) : String :=
  let q : Char :=
    if s.toList.contains (Char.ofNat 39) && !(s.toList.contains (Char.ofNat 34)) then
      Char.ofNat 34
    else Char.ofNat 39
  String.singleton q ++ String.join (s.toList.map (pyEscChar q)) ++
    String.singleton q

mutual

/-- Python `repr` of a JSON-decoded value. -/
def pyRepr : Json → String
  | .null => "None"
  | .bool true => "True"
  | .bool false => "False"
  | .num n => toString n
  | .str s => pyStrRepr s
  | .arr xs => "[" ++ pyReprList xs ++ "]"
  | .obj fs => "\x7b" ++ pyReprFields fs ++ "\x7d"

/-- Comma-separated `repr` of list elements. -/
def pyReprList : List Json → String
  | [] => ""
  | [x] => pyRepr x
  | x :: y :: rest => pyRepr x ++ ", " ++ pyReprList (y :: rest)

/-- Comma-separated `repr` of dict entries. -/
def pyReprFields : List (String × Json) → String
  | [] => ""
  | [(k, v)] => pyStrRepr k ++ ": " ++ pyRepr v
  | (k, v) :: p :: rest => pyStrRepr k ++ ": " ++ pyRepr v ++ ", " ++ pyReprFields (p :: rest)

end

/-- Python `str(x)` / f-string rendering of a JSON-decoded value. -/
def pyStr : Json → String
  | .str s => s
  | j => pyRepr j

/-- Python f-string rendering of an `Optional[str]` (`str(None)` is
`"None"`). -/
def pyStrOpt : Option String → String
  | none => "None"
  | some s => s

/-- Raw stdout of a completed child process, quotiented to what the script
observes: empty, non-empty and failing `json.loads` (carrying `str` of the
decode exception), or non-empty and decoding to a JSON value. -/
inductive RawOut where
  | empty : RawOut
  | invalid : String → RawOut
  | valid : Json → RawOut

/-- Outcome of one `subprocess.run` call: executable not found
(`FileNotFoundError`), some other exception (carrying `str(e)`), or a
completed child process with exit code, classified stdout and stderr text. -/
inductive ProcOutcome where
  | notFound : ProcOutcome
  | execError : String → ProcOutcome
  | completed : Int → RawOut → String → ProcOutcome

/-- The `ScanResult` dataclass (lines 18-23). `findings` keeps the exact
Python value stored in the slot, which the source does not constrain to be a
list. -/
structure ScanResult where
  tool : String
  success : Bool
  findings : Json
  error : Option String

/-- Normalization of bandit stdout inside `run_bandit`'s try block:
`data = json.loads(result.stdout) if result.stdout else {"results": []}` then
`data.get("results", [])` (lines 35-40); errors are the caught exception
texts. -/
def banditParse : RawOut → Except String Json
  | .empty => .ok (Json.arr [])
  | .invalid e => .error e
  | .valid j => pyDictGetD j "results" (Json.arr [])

/-- `run_bandit` (lines 26-60). -/
def run_bandit (o : ProcOutcome) : ScanResult :=
  match o with
  | .completed rc out se =>
    if rc = 0 ∨ rc = 1 then
      match banditParse out with
      | .ok f => ⟨"bandit", true, f, none⟩
      | .error e => ⟨"bandit", false, Json.arr [], some e⟩
    else ⟨"bandit", false, Json.arr [], some se⟩
  | .notFound =>
    ⟨"bandit", false, Json.arr [], some "bandit not installed. Run: pip install bandit"⟩
  | .execError e => ⟨"bandit", false, Json.arr [], some e⟩

/-- Normalization of pip-audit stdout inside `run_pip_audit`'s try block:
`data = json.loads(result.stdout) if result.stdout else []` then
`data if isinstance(data, list) else []` (lines 72-76). -/
def pipAuditParse : RawOut → Except String Json
  | .empty => .ok (Json.arr [])
  | .invalid e => .error e
  | .valid j =>
    match j with
    | .arr xs => .ok (Json.arr xs)
    | _ => .ok (Json.arr [])

/-- `run_pip_audit` (lines 63-97). -/
def run_pip_audit (o : ProcOutcome) : ScanResult :=
  match o with
  | .completed rc out se =>
    if rc = 0 ∨ rc = 1 then
      match pipAuditParse out with
      | .ok f => ⟨"pip-audit", true, f, none⟩
      | .error e => ⟨"pip-audit", false, Json.arr [], some e⟩
    else ⟨"pip-audit", false, Json.arr [], some se⟩
  | .notFound =>
    ⟨"pip-audit", false, Json.arr [], some "pip-audit not installed. Run: pip install pip-audit"⟩
  | .execError e => ⟨"pip-audit", false, Json.arr [], some e⟩

/-- Normalization of safety stdout inside `run_safety`'s try block:
`data = json.loads(result.stdout)` then `data.get("vulnerabilities", [])`
(lines 109-110). The exit code is never inspected. -/
def safetyParse : RawOut → Except String Json
  | .empty => .ok (Json.arr [])
  | .invalid e => .error e
  | .valid j => pyDictGetD j "vulnerabilities" (Json.arr [])

/-- `run_safety` (lines 100-134). The completed-process branch depends only
on stdout: the source has no exit-code check for safety. -/
def run_safety (o : ProcOutcome) : ScanResult :=
  match o with
  | .completed _ out _ =>
    match safetyParse out with
    | .ok f => ⟨"safety", true, f, none⟩
    | .error e => ⟨"safety", false, Json.arr [], some e⟩
  | .notFound =>
    ⟨"safety", false, Json.arr [], some "safety not installed. Run: pip install safety"⟩
  | .execError e => ⟨"safety", false, Json.arr [], some e⟩

/-- Flattening of one detect-secrets file entry: `for secret in secrets:`
with `secret.get("type")` and `secret.get("line_number")` (lines 149-154).
Non-dict secrets raise AttributeError, caught by the runner. -/
def secretsOfFile (filePath : String) : List Json → Except String (List Json)
  | [] => .ok []
  | s :: rest =>
    match s with
    | .obj fs =>
      match secretsOfFile filePath rest with
      | .ok tail =>
        .ok (Json.obj [("file", Json.str filePath),
          ("type", objGetD fs "type" Json.null),
          ("line", objGetD fs "line_number" Json.null)] :: tail)
      | .error e => .error e
    | other => .error (pyAttrErr other "get")

/-- Iteration over `data.get("results", {}).items()` (lines 148-154): each
file entry's secrets value is iterated and flattened in document order. -/
def secretsOfFields : List (String × Json) → Except String (List Json)
  | [] => .ok []
  | (filePath, secrets) :: rest =>
    match pyIterate secrets with
    | .error e => .error e
    | .ok items =>
      match secretsOfFile filePath items with
      | .error e => .error e
      | .ok here =>
        match secretsOfFields rest with
        | .error e => .error e
        | .ok tail => .ok (here ++ tail)

/-- Normalization of detect-secrets stdout inside `check_secrets`'s try
block: `data.get("results", {})`, `.items()`, then per-file flattening
(lines 146-154). -/
def secretsParse : RawOut → Except String Json
  | .empty => .ok (Json.arr [])
  | .invalid e => .error e
  | .valid j =>
    match pyDictGetD j "results" (Json.obj []) with
    | .error e => .error e
    | .ok v =>
      match v with
      | .obj entries =>
        match secretsOfFields entries with
        | .ok fs => .ok (Json.arr fs)
        | .error e => .error e
      | other => .error (pyAttrErr other "items")

/-- `check_secrets` (lines 137-178). The completed-process branch depends
only on stdout: the source has no exit-code check for detect-secrets. -/
def check_secrets (o : ProcOutcome) : ScanResult :=
  match o with
  | .completed _ out _ =>
    match secretsParse out with
    | .ok f => ⟨"detect-secrets", true, f, none⟩
    | .error e => ⟨"detect-secrets", false, Json.arr [], some e⟩
  | .notFound =>
    ⟨"detect-secrets", false, Json.arr [], some "detect-secrets not installed. Run: pip install detect-secrets"⟩
  | .execError e => ⟨"detect-secrets", false, Json.arr [], some e⟩

/-- The line `"=" * 60`. -/
def eq60 : String := String.mk (List.replicate 60 (Char.ofNat 61))

/-- The line `"-" * 40`. -/
def dash40 : String := String.mk (List.replicate 40 (Char.ofNat 45))

/-- One numbered finding entry of the textual report (lines 197-221): one or
two lines depending on which tool-format fields the finding carries. -/
def renderFinding (i : Nat) (f : Json) : List String :=
  match f with
  | .obj fs =>
    if (objGet fs "issue_text").isSome then
      ["  " ++ toString i ++ ". [" ++ pyStr (objGetD fs "issue_severity" (Json.str "UNKNOWN")) ++ "] "
         ++ pyStr (objGetD fs "issue_text" (Json.str "Unknown issue")),
       "     File: " ++ pyStr (objGetD fs "filename" (Json.str "unknown"))]
    else if (objGet fs "name").isSome then
      ["  " ++ toString i ++ ". " ++ pyStr (objGetD fs "name" Json.null) ++ " "
         ++ pyStr (objGetD fs "version" (Json.str "")) ++ ": "
         ++ pyStr (objGetD fs "vulns" (Json.arr []))]
    else if (objGet fs "file").isSome then
      ["  " ++ toString i ++ ". " ++ pyStr (objGetD fs "type" (Json.str "Secret")) ++ " in "
         ++ pyStr (objGetD fs "file" (Json.str "unknown")) ++ ":"
         ++ pyStr (objGetD fs "line" (Json.str "?"))]
    else ["  " ++ toString i ++ ". " ++ pyStr f]
  | _ => ["  " ++ toString i ++ ". " ++ pyStr f]

/-- The lines of the `for i, finding in enumerate(result.findings[:10], 1)`
loop, over the already-sliced items. -/
def findingEntryLines (items : List Json) : List String :=
  (List.enumFrom 1 items).flatMap (fun p => renderFinding p.1 p.2)

/-- One iteration of the report loop (lines 187-228): the lines appended for
one `ScanResult` together with its contribution to `total_findings` (added
only in the successful-with-truthy-findings branch). Dynamic `len`/slice
errors on a non-list findings value propagate as an uncaught exception. -/
def resultBlock (r : ScanResult) : Except String (List String × Nat) :=
  if r.success = false then
    .ok (["## " ++ pyStrUpper r.tool, dash40, "Error: " ++ pyStrOpt r.error, ""], 0)
  else if pyTruthy r.findings = false then
    .ok (["## " ++ pyStrUpper r.tool, dash40, "No issues found.", ""], 0)
  else
    match pyLen r.findings with
    | .error e => .error e
    | .ok n =>
      match pySliceIter10 r.findings with
      | .error e => .error e
      | .ok items =>
        .ok (["## " ++ pyStrUpper r.tool, dash40, "Found " ++ toString n ++ " issue(s):"]
          ++ findingEntryLines items
          ++ (if 10 < n then ["  ... and " ++ toString (n - 10) ++ " more"] else [])
          ++ [""], n)

/-- The report loop over all results, accumulating lines and
`total_findings`. -/
def reportFold : List ScanResult → Except String (List String × Nat)
  | [] => .ok ([], 0)
  | r :: rs =>
    match resultBlock r with
    | .error e => .error e
    | .ok (ls, t) =>
      match reportFold rs with
      | .error e => .error e
      | .ok (ls2, t2) => .ok (ls ++ ls2, t + t2)

/-- `format_report` (lines 181-234), as the list of report lines paired with
the computed `total_findings`. -/
def formatReportLines (results : List ScanResult) : Except String (List String × Nat) :=
  match reportFold results with
  | .error e => .error e
  | .ok (ls, t) =>
    .ok ([eq60, "Security Scan Report", eq60, ""] ++ ls
      ++ [eq60, "Total findings: " ++ toString t, eq60], t)

/-- `format_report`'s return value: the lines joined with newlines. -/
def formatReport (results : List ScanResult) : Except String String :=
  match formatReportLines results with
  | .error e => .error e
  | .ok (ls, _) => .ok (String.intercalate "\n" ls)

/-- One serialized result entry of the `--output` report (lines 295-300):
the findings slot is stored as-is, with no truncation. -/
def serializeResult (r : ScanResult) : Json :=
  Json.obj [("tool", Json.str r.tool), ("success", Json.bool r.success),
    ("findings", r.findings),
    ("error", match r.error with | none => Json.null | some s => Json.str s)]

/-- The `--output` report object (lines 292-303). -/
def serializeReport (projectPath : String) (results : List ScanResult) : Json :=
  Json.obj [("project", Json.str projectPath),
    ("results", Json.arr (results.map serializeResult))]

/-- Field access on a serialized JSON object. -/
def jsonField (j : Json) (key : String) : Option Json :=
  match j with
  | .obj fs => objGet fs key
  | _ => none

/-- The severity test of the exit loop (lines 310-312): for a dict finding,
`finding.get("issue_severity", "").upper() in ("HIGH", "CRITICAL")`; a
non-string severity value makes `.upper()` raise. Non-dict findings are
skipped. -/
def findingTriggers (f : Json) : Except String Bool :=
  match f with
  | .obj fs =>
    match pyUpper (objGetD fs "issue_severity" (Json.str "")) with
    | .error e => .error e
    | .ok s => .ok (s == "HIGH" || s == "CRITICAL")
  | _ => .ok false

/-- The inner exit loop over one result's findings, short-circuiting at the
first qualifying severity (`sys.exit(1)`). -/
def policyScanList : List Json → Except String Bool
  | [] => .ok false
  | f :: fs =>
    match findingTriggers f with
    | .error e => .error e
    | .ok true => .ok true
    | .ok false => policyScanList fs

/-- The outer exit loop (lines 308-313) over all results; iterating a
non-iterable findings value raises. -/
def policyScan : List ScanResult → Except String Bool
  | [] => .ok false
  | r :: rs =>
    match pyIterate r.findings with
    | .error e => .error e
    | .ok fs =>
      match policyScanList fs with
      | .error e => .error e
      | .ok true => .ok true
      | .ok false => policyScan rs

/-- The exit code produced by the severity loop alone: 1 on a qualifying
severity or on an uncaught exception in the loop (the interpreter terminates
a traceback with status 1), else 0. -/
def exitPolicy (results : List ScanResult) : Nat :=
  match policyScan results with
  | .error _ => 1
  | .ok true => 1
  | .ok false => 0

/-- The result list assembled by `main` (lines 270-286): each tool not named
in `--skip` is invoked exactly once, in the fixed source order. -/
def gatherResults (skip : List String) (oB oP oS oSec : ProcOutcome) : List ScanResult :=
  (if "bandit" ∉ skip then [run_bandit oB] else [])
  ++ (if "pip-audit" ∉ skip then [run_pip_audit oP] else [])
  ++ (if "safety" ∉ skip then [run_safety oS] else [])
  ++ (if "secrets" ∉ skip then [check_secrets oSec] else [])

/-- Exit status of `main` after the results are assembled (lines 289-315):
`format_report` runs first (an uncaught exception there terminates with
status 1), then the severity loop decides `sys.exit(1)` or `sys.exit(0)`. -/
def mainExit (results : List ScanResult) : Nat :=
  match formatReportLines results with
  | .error _ => 1
  | .ok _ => exitPolicy results

/-- Modelled from the spec: the repository gives no per-tool success set for
safety and detect-secrets (their runners never read the exit code); section 6
of the spec fixes the collaborator convention "0 or 1 = ran and is
interpretable" for every tool, so the known success set is `[0, 1]`. -/
def specKnownSuccessSet : List Int := [0, 1]

/-- The claim predicate of the Exit Policy: some result is successful and
carries a dict finding whose severity field is a string upper-casing to HIGH
or CRITICAL. -/
def isHighCritFinding (f : Json) : Bool :=
  match f with
  | .obj fs =>
    match objGetD fs "issue_severity" (Json.str "") with
    | .str s => pyStrUpper s == "HIGH" || pyStrUpper s == "CRITICAL"
    | _ => false
  | _ => false

/-- Whether a result list contains a HIGH or CRITICAL severity finding among
its successful results, in the sense of the specification. -/
def hasHighCritical (results : List ScanResult) : Bool :=
  results.any (fun r =>
    r.success &&
      (match r.findings with
       | .arr xs => xs.any isHighCritFinding
       | _ => false))

/-- Length of a finding sequence stored in a `ScanResult`, zero for a
non-list slot. -/
def findingsCount (r : ScanResult) : Nat :=
  match r.findings with
  | .arr xs => xs.length
  | _ => 0

/-- The claimed total: the sum of finding-sequence lengths over all results
with success = true. -/
def successTotal (results : List ScanResult) : Nat :=
  (results.map (fun r => if r.success then findingsCount r else 0)).sum

/-- Sample findings list of length 13 for instantiating the report claims. -/
def sampleFindings13 : List Json :=
  [Json.num 0, Json.num 1, Json.num 2, Json.num 3, Json.num 4, Json.num 5,
   Json.num 6, Json.num 7, Json.num 8, Json.num 9, Json.num 10, Json.num 11,
   Json.num 12]

/-- Sample findings list of length 10 for instantiating the report claims. -/
def sampleFindings10 : List Json :=
  [Json.num 0, Json.num 1, Json.num 2, Json.num 3, Json.num 4, Json.num 5,
   Json.num 6, Json.num 7, Json.num 8, Json.num 9]

/-- Bandit stdout carrying a finding whose severity field is not a string:
`json.loads` of the text `{"results": [{"issue_severity": 3}]}`. -/
def nonStringSeverityOut : RawOut :=
  RawOut.valid (Json.obj [("results", Json.arr [Json.obj [("issue_severity", Json.num 3)]])])

theorem run_bandit_tool (o : ProcOutcome) : (run_bandit o).tool = "bandit" := by
  cases o with
  | notFound => rfl
  | execError e => rfl
  | completed rc out se =>
    simp only [run_bandit]
    split
    · split <;> rfl
    · rfl

theorem run_pip_audit_tool (o : ProcOutcome) : (run_pip_audit o).tool = "pip-audit" := by
  cases o with
  | notFound => rfl
  | execError e => rfl
  | completed rc out se =>
    simp only [run_pip_audit]
    split
    · split <;> rfl
    · rfl

theorem run_safety_tool (o : ProcOutcome) : (run_safety o).tool = "safety" := by
  cases o with
  | notFound => rfl
  | execError e => rfl
  | completed rc out se =>
    simp only [run_safety]
    split <;> rfl

theorem check_secrets_tool (o : ProcOutcome) : (check_secrets o).tool = "detect-secrets" := by
  cases o with
  | notFound => rfl
  | execError e => rfl
  | completed rc out se =>
    simp only [check_secrets]
    split <;> rfl

theorem gatherResults_map_tool (skip : List String) (oB oP oS oSec : ProcOutcome) :
    (gatherResults skip oB oP oS oSec).map ScanResult.tool =
      (if "bandit" ∉ skip then ["bandit"] else [])
        ++ (if "pip-audit" ∉ skip then ["pip-audit"] else [])
        ++ (if "safety" ∉ skip then ["safety"] else [])
        ++ (if "secrets" ∉ skip then ["detect-secrets"] else []) := by
  unfold gatherResults
  by_cases h1 : "bandit" ∈ skip <;> by_cases h2 : "pip-audit" ∈ skip <;>
    by_cases h3 : "safety" ∈ skip <;> by_cases h4 : "secrets" ∈ skip <;>
    simp [h1, h2, h3, h4, run_bandit_tool, run_pip_audit_tool, run_safety_tool,
      check_secrets_tool]

theorem run_bandit_fail_shape (o : ProcOutcome) (h : (run_bandit o).success = false) :
    (run_bandit o).findings = Json.arr [] ∧ (run_bandit o).error ≠ none := by
  cases o with
  | notFound => exact ⟨rfl, by simp [run_bandit]⟩
  | execError e => exact ⟨rfl, by simp [run_bandit]⟩
  | completed rc out se =>
    simp only [run_bandit] at h ⊢
    by_cases hrc : rc = 0 ∨ rc = 1
    · rw [if_pos hrc] at h ⊢
      cases hb : banditParse out with
      | ok f => rw [hb] at h; simp at h
      | error e => exact ⟨rfl, by simp⟩
    · rw [if_neg hrc]; exact ⟨rfl, by simp⟩

theorem run_pip_audit_fail_shape (o : ProcOutcome) (h : (run_pip_audit o).success = false) :
    (run_pip_audit o).findings = Json.arr [] ∧ (run_pip_audit o).error ≠ none := by
  cases o with
  | notFound => exact ⟨rfl, by simp [run_pip_audit]⟩
  | execError e => exact ⟨rfl, by simp [run_pip_audit]⟩
  | completed rc out se =>
    simp only [run_pip_audit] at h ⊢
    by_cases hrc : rc = 0 ∨ rc = 1
    · rw [if_pos hrc] at h ⊢
      cases hb : pipAuditParse out with
      | ok f => rw [hb] at h; simp at h
      | error e => exact ⟨rfl, by simp⟩
    · rw [if_neg hrc]; exact ⟨rfl, by simp⟩

theorem run_safety_fail_shape (o : ProcOutcome) (h : (run_safety o).success = false) :
    (run_safety o).findings = Json.arr [] ∧ (run_safety o).error ≠ none := by
  cases o with
  | notFound => exact ⟨rfl, by simp [run_safety]⟩
  | execError e => exact ⟨rfl, by simp [run_safety]⟩
  | completed rc out se =>
    simp only [run_safety] at h ⊢
    cases hb : safetyParse out with
    | ok f => rw [hb] at h; simp at h
    | error e => exact ⟨rfl, by simp⟩

theorem check_secrets_fail_shape (o : ProcOutcome) (h : (check_secrets o).success = false) :
    (check_secrets o).findings = Json.arr [] ∧ (check_secrets o).error ≠ none := by
  cases o with
  | notFound => exact ⟨rfl, by simp [check_secrets]⟩
  | execError e => exact ⟨rfl, by simp [check_secrets]⟩
  | completed rc out se =>
    simp only [check_secrets] at h ⊢
    cases hb : secretsParse out with
    | ok f => rw [hb] at h; simp at h
    | error e => exact ⟨rfl, by simp⟩

/-- C1: the Exit Policy claim fails on the code: a successful bandit result
whose finding carries a non-string severity value makes the exit loop raise
(AttributeError on `.upper()`), so the interpreter terminates with status 1
even though no finding has a HIGH or CRITICAL severity classification.
The result below is produced by the real pipeline from bandit exiting 0 with
stdout decoding to a list containing a finding with `issue_severity` 3, with
the other scanners skipped. -/
theorem c1_exit_status_one_without_high_severity :
    mainExit (gatherResults ["pip-audit", "safety", "secrets"]
        (ProcOutcome.completed 0 nonStringSeverityOut "") .notFound .notFound .notFound) = 1
    ∧ hasHighCritical (gatherResults ["pip-audit", "safety", "secrets"]
        (ProcOutcome.completed 0 nonStringSeverityOut "") .notFound .notFound .notFound) = false := by
  exact ⟨rfl, rfl⟩

/-- C2 counterexample: safety terminating with exit code 2 — outside the
known success set 0/1 of the spec's collaborator convention — and empty
stdout yields success = true with no error, not success = false with the
captured stderr. -/
theorem c2_counterexample_safety_ignores_exit_code :
    (2 : Int) ∉ specKnownSuccessSet
    ∧ run_safety (ProcOutcome.completed 2 RawOut.empty "boom") =
        ⟨"safety", true, Json.arr [], none⟩ := by
  exact ⟨by decide, rfl⟩

/-- C2 (amended): bandit and pip-audit map an exit code outside their checked
success set 0/1 to success = false with error = captured stderr; safety and
detect-secrets never inspect the exit code, so their result is invariant
under it. -/
theorem c2_amended_exit_code_handling :
    (∀ (rc : Int) (out : RawOut) (se : String), ¬(rc = 0 ∨ rc = 1) →
      run_bandit (.completed rc out se) = ⟨"bandit", false, Json.arr [], some se⟩)
    ∧ (∀ (rc : Int) (out : RawOut) (se : String), ¬(rc = 0 ∨ rc = 1) →
      run_pip_audit (.completed rc out se) = ⟨"pip-audit", false, Json.arr [], some se⟩)
    ∧ (∀ (rc rc2 : Int) (out : RawOut) (se : String),
      run_safety (.completed rc out se) = run_safety (.completed rc2 out se))
    ∧ (∀ (rc rc2 : Int) (out : RawOut) (se : String),
      check_secrets (.completed rc out se) = check_secrets (.completed rc2 out se)) := by
  refine ⟨?_, ?_, ?_, ?_⟩
  · intro rc out se h
    simp only [run_bandit]
    rw [if_neg h]
  · intro rc out se h
    simp only [run_pip_audit]
    rw [if_neg h]
  · intro rc rc2 out se
    rfl
  · intro rc rc2 out se
    rfl

theorem c2_amended_witness :
    run_bandit (.completed 7 RawOut.empty "boom") = ⟨"bandit", false, Json.arr [], some "boom"⟩
    ∧ run_pip_audit (.completed 7 RawOut.empty "boom") = ⟨"pip-audit", false, Json.arr [], some "boom"⟩
    ∧ run_safety (.completed 7 RawOut.empty "x") = run_safety (.completed 0 RawOut.empty "x")
    ∧ check_secrets (.completed 7 RawOut.empty "x") = check_secrets (.completed 0 RawOut.empty "x") :=
  ⟨c2_amended_exit_code_handling.1 7 RawOut.empty "boom" (by decide),
   c2_amended_exit_code_handling.2.1 7 RawOut.empty "boom" (by decide),
   c2_amended_exit_code_handling.2.2.1 7 0 RawOut.empty "x",
   c2_amended_exit_code_handling.2.2.2 7 0 RawOut.empty "x"⟩

/-- C3 counterexample: bandit terminating with exit code 2 and an empty
stderr produces a failed `ScanResult` whose error message is the empty
string, refuting the non-emptiness half of the invariant. -/
theorem c3_counterexample_empty_stderr :
    (run_bandit (ProcOutcome.completed 2 RawOut.empty "")).success = false
    ∧ (run_bandit (ProcOutcome.completed 2 RawOut.empty "")).error = some "" := by
  exact ⟨rfl, rfl⟩

/-- C3 (amended): every `ScanResult` constructed with success = false by any
of the four runners carries an error message — present, though possibly the
empty string when it is a captured stderr or exception text that was empty —
and an empty finding sequence. -/
theorem c3_amended_failure_invariant (o : ProcOutcome) :
    ((run_bandit o).success = false →
      (run_bandit o).findings = Json.arr [] ∧ (run_bandit o).error ≠ none)
    ∧ ((run_pip_audit o).success = false →
      (run_pip_audit o).findings = Json.arr [] ∧ (run_pip_audit o).error ≠ none)
    ∧ ((run_safety o).success = false →
      (run_safety o).findings = Json.arr [] ∧ (run_safety o).error ≠ none)
    ∧ ((check_secrets o).success = false →
      (check_secrets o).findings = Json.arr [] ∧ (check_secrets o).error ≠ none) :=
  ⟨run_bandit_fail_shape o, run_pip_audit_fail_shape o,
   run_safety_fail_shape o, check_secrets_fail_shape o⟩

theorem c3_amended_witness :
    (run_bandit ProcOutcome.notFound).findings = Json.arr []
    ∧ (run_bandit ProcOutcome.notFound).error ≠ none :=
  (c3_amended_failure_invariant ProcOutcome.notFound).1 rfl

/-- C4: every tool that terminates with an exit code in the known success set
0/1 and empty stdout yields success = true with an empty finding sequence and
no error. -/
theorem c4_empty_stdout_success (rc : Int) (seB seP seS seD : String)
    (h : rc = 0 ∨ rc = 1) :
    run_bandit (.completed rc RawOut.empty seB) = ⟨"bandit", true, Json.arr [], none⟩
    ∧ run_pip_audit (.completed rc RawOut.empty seP) = ⟨"pip-audit", true, Json.arr [], none⟩
    ∧ run_safety (.completed rc RawOut.empty seS) = ⟨"safety", true, Json.arr [], none⟩
    ∧ check_secrets (.completed rc RawOut.empty seD) = ⟨"detect-secrets", true, Json.arr [], none⟩ := by
  refine ⟨?_, ?_, rfl, rfl⟩
  · simp only [run_bandit]
    rw [if_pos h]
    rfl
  · simp only [run_pip_audit]
    rw [if_pos h]
    rfl

theorem c4_witness :
    run_bandit (.completed 0 RawOut.empty "a") = ⟨"bandit", true, Json.arr [], none⟩
    ∧ run_pip_audit (.completed 0 RawOut.empty "b") = ⟨"pip-audit", true, Json.arr [], none⟩
    ∧ run_safety (.completed 0 RawOut.empty "c") = ⟨"safety", true, Json.arr [], none⟩
    ∧ check_secrets (.completed 0 RawOut.empty "d") = ⟨"detect-secrets", true, Json.arr [], none⟩ :=
  c4_empty_stdout_success 0 "a" "b" "c" "d" (Or.inl rfl)

/-- C5: a non-empty stdout whose `json.loads` fails yields success = false
with the decode error text as the message, for every tool (bandit and
pip-audit reach the decoder on a success-set exit code; safety and
detect-secrets on any exit code); and the assembled result list still
contains one entry per configured tool, in order, whatever each tool's
outcome — no failure propagates. -/
theorem c5_decode_failure_surfaced (rc : Int) (e se : String)
    (h : rc = 0 ∨ rc = 1) :
    run_bandit (.completed rc (RawOut.invalid e) se) = ⟨"bandit", false, Json.arr [], some e⟩
    ∧ run_pip_audit (.completed rc (RawOut.invalid e) se) = ⟨"pip-audit", false, Json.arr [], some e⟩
    ∧ (∀ rc2 : Int, run_safety (.completed rc2 (RawOut.invalid e) se) =
        ⟨"safety", false, Json.arr [], some e⟩)
    ∧ (∀ rc2 : Int, check_secrets (.completed rc2 (RawOut.invalid e) se) =
        ⟨"detect-secrets", false, Json.arr [], some e⟩)
    ∧ (∀ (skip : List String) (oB oP oS oSec : ProcOutcome),
        (gatherResults skip oB oP oS oSec).map ScanResult.tool =
          (if "bandit" ∉ skip then ["bandit"] else [])
            ++ (if "pip-audit" ∉ skip then ["pip-audit"] else [])
            ++ (if "safety" ∉ skip then ["safety"] else [])
            ++ (if "secrets" ∉ skip then ["detect-secrets"] else [])) := by
  refine ⟨?_, ?_, fun rc2 => rfl, fun rc2 => rfl, gatherResults_map_tool⟩
  · simp only [run_bandit]
    rw [if_pos h]
    rfl
  · simp only [run_pip_audit]
    rw [if_pos h]
    rfl

theorem c5_witness :
    run_bandit (.completed 1 (RawOut.invalid "Expecting value: line 1 column 1 (char 0)") "s")
      = ⟨"bandit", false, Json.arr [], some "Expecting value: line 1 column 1 (char 0)"⟩
    ∧ run_safety (.completed 1 (RawOut.invalid "Expecting value: line 1 column 1 (char 0)") "s")
      = ⟨"safety", false, Json.arr [], some "Expecting value: line 1 column 1 (char 0)"⟩
    ∧ (gatherResults [] ProcOutcome.notFound ProcOutcome.notFound ProcOutcome.notFound
        ProcOutcome.notFound).map ScanResult.tool = ["bandit", "pip-audit", "safety", "detect-secrets"] :=
  ⟨(c5_decode_failure_surfaced 1 "Expecting value: line 1 column 1 (char 0)" "s" (Or.inr rfl)).1,
   (c5_decode_failure_surfaced 1 "Expecting value: line 1 column 1 (char 0)" "s" (Or.inr rfl)).2.2.1 1,
   ((c5_decode_failure_surfaced 1 "x" "s" (Or.inr rfl)).2.2.2.2 [] .notFound .notFound .notFound
     .notFound).trans (by decide)⟩

/-- C8: a missing executable yields success = false with the fixed non-empty
"<tool> not installed" message carrying a pip-install hint, for each tool,
and the run still produces one result per configured tool in order. -/
theorem c8_tool_not_found :
    run_bandit .notFound =
      ⟨"bandit", false, Json.arr [], some "bandit not installed. Run: pip install bandit"⟩
    ∧ run_pip_audit .notFound =
      ⟨"pip-audit", false, Json.arr [], some "pip-audit not installed. Run: pip install pip-audit"⟩
    ∧ run_safety .notFound =
      ⟨"safety", false, Json.arr [], some "safety not installed. Run: pip install safety"⟩
    ∧ check_secrets .notFound =
      ⟨"detect-secrets", false, Json.arr [], some "detect-secrets not installed. Run: pip install detect-secrets"⟩
    ∧ "bandit not installed. Run: pip install bandit" ≠ ""
    ∧ "pip-audit not installed. Run: pip install pip-audit" ≠ ""
    ∧ "safety not installed. Run: pip install safety" ≠ ""
    ∧ "detect-secrets not installed. Run: pip install detect-secrets" ≠ ""
    ∧ (∀ (oP oS oSec : ProcOutcome),
        (gatherResults [] .notFound oP oS oSec).map ScanResult.tool =
          ["bandit", "pip-audit", "safety", "detect-secrets"]) := by
  refine ⟨rfl, rfl, rfl, rfl, by decide, by decide, by decide, by decide, ?_⟩
  intro oP oS oSec
  exact (gatherResults_map_tool [] .notFound oP oS oSec).trans (by decide)

/-- C10: pip-audit stdout that decodes to a non-list JSON value is silently
discarded: the result is success = true with an empty finding sequence and no
error. -/
theorem c10_pip_audit_non_list_discarded (rc : Int) (j : Json) (se : String)
    (h : rc = 0 ∨ rc = 1) (hna : ∀ xs, j ≠ Json.arr xs) :
    run_pip_audit (.completed rc (RawOut.valid j) se) = ⟨"pip-audit", true, Json.arr [], none⟩ := by
  simp only [run_pip_audit]
  rw [if_pos h]
  cases j with
  | arr xs => exact absurd rfl (hna xs)
  | null => rfl
  | bool b => rfl
  | num n => rfl
  | str s => rfl
  | obj fs => rfl

theorem c10_witness :
    run_pip_audit (.completed 0 (RawOut.valid (Json.obj [("extra", Json.null)])) "s")
      = ⟨"pip-audit", true, Json.arr [], none⟩ :=
  c10_pip_audit_non_list_discarded 0 (Json.obj [("extra", Json.null)]) "s" (Or.inl rfl)
    (fun _ h => Json.noConfusion h)

theorem resultBlock_success_arr (r : ScanResult) (xs : List Json)
    (hs : r.success = true) (hf : r.findings = Json.arr xs) (hne : xs ≠ []) :
    resultBlock r = .ok (["## " ++ pyStrUpper r.tool, dash40,
        "Found " ++ toString xs.length ++ " issue(s):"]
      ++ findingEntryLines (xs.take 10)
      ++ (if 10 < xs.length then ["  ... and " ++ toString (xs.length - 10) ++ " more"] else [])
      ++ [""], xs.length) := by
  cases r with
  | mk t s f er =>
    dsimp only at hs hf ⊢
    subst hs
    subst hf
    cases xs with
    | nil => exact absurd rfl hne
    | cons y ys => rfl

theorem resultBlock_of_fail (r : ScanResult) (h : r.success = false) :
    resultBlock r = .ok (["## " ++ pyStrUpper r.tool, dash40,
      "Error: " ++ pyStrOpt r.error, ""], 0) := by
  unfold resultBlock
  rw [h]
  rfl

theorem resultBlock_total_of_success (r : ScanResult) (xs : List Json)
    (hs : r.success = true) (hf : r.findings = Json.arr xs) :
    ∃ ls, resultBlock r = .ok (ls, xs.length) := by
  cases r with
  | mk t s f er =>
    dsimp only at hs hf ⊢
    subst hs
    subst hf
    cases xs with
    | nil => exact ⟨_, rfl⟩
    | cons y ys => exact ⟨_, rfl⟩

theorem reportFold_total (results : List ScanResult)
    (h : ∀ r ∈ results, r.success = true → ∃ xs, r.findings = Json.arr xs) :
    ∃ ls, reportFold results = .ok (ls, successTotal results) := by
  induction results with
  | nil => exact ⟨[], rfl⟩
  | cons r rs ih =>
    obtain ⟨ls2, h2⟩ := ih (fun x hx hs => h x (List.mem_cons_of_mem r hx) hs)
    cases hsucc : r.success with
    | false =>
      refine ⟨["## " ++ pyStrUpper r.tool, dash40, "Error: " ++ pyStrOpt r.error, ""] ++ ls2, ?_⟩
      simp only [reportFold, resultBlock_of_fail r hsucc, h2]
      simp [successTotal, hsucc]
    | true =>
      obtain ⟨xs, hxs⟩ := h r (List.mem_cons_self r rs) hsucc
      obtain ⟨ls1, h1⟩ := resultBlock_total_of_success r xs hsucc hxs
      refine ⟨ls1 ++ ls2, ?_⟩
      simp only [reportFold, h1, h2]
      simp [successTotal, hsucc, findingsCount, hxs]

/-- C6: for a successful result whose finding sequence is non-empty, the
textual report block lists the tool header, the full count, the first 10
findings (all of them when there are at most 10), and an overflow line
carrying length minus 10 exactly when the length exceeds 10; the number of
rendered findings is min 10 length. -/
theorem c6_textual_truncation (r : ScanResult) (xs : List Json)
    (hs : r.success = true) (hf : r.findings = Json.arr xs) (hne : xs ≠ []) :
    resultBlock r = .ok (["## " ++ pyStrUpper r.tool, dash40,
        "Found " ++ toString xs.length ++ " issue(s):"]
      ++ findingEntryLines (xs.take 10)
      ++ (if 10 < xs.length then ["  ... and " ++ toString (xs.length - 10) ++ " more"] else [])
      ++ [""], xs.length)
    ∧ (xs.take 10).length = min 10 xs.length := by
  refine ⟨resultBlock_success_arr r xs hs hf hne, ?_⟩
  simp [List.length_take]

theorem c6_witness :
    (resultBlock ⟨"bandit", true, Json.arr sampleFindings13, none⟩ =
      .ok (["## BANDIT", dash40, "Found 13 issue(s):", "  1. 0", "  2. 1", "  3. 2",
        "  4. 3", "  5. 4", "  6. 5", "  7. 6", "  8. 7", "  9. 8", "  10. 9",
        "  ... and 3 more", ""], 13)
      ∧ (sampleFindings13.take 10).length = min 10 sampleFindings13.length)
    ∧ (resultBlock ⟨"safety", true, Json.arr sampleFindings10, none⟩ =
      .ok (["## SAFETY", dash40, "Found 10 issue(s):", "  1. 0", "  2. 1", "  3. 2",
        "  4. 3", "  5. 4", "  6. 5", "  7. 6", "  8. 7", "  9. 8", "  10. 9", ""], 10)
      ∧ (sampleFindings10.take 10).length = min 10 sampleFindings10.length) := by
  constructor
  · have h := c6_textual_truncation ⟨"bandit", true, Json.arr sampleFindings13, none⟩
      sampleFindings13 rfl rfl (by simp [sampleFindings13])
    exact ⟨h.1.trans rfl, h.2⟩
  · have h := c6_textual_truncation ⟨"safety", true, Json.arr sampleFindings10, none⟩
      sampleFindings10 rfl rfl (by simp [sampleFindings10])
    exact ⟨h.1.trans rfl, h.2⟩

/-- C7: when every successful result stores a finding list, the report's
total-findings count equals the sum of finding-sequence lengths over the
successful results and is printed on the summary line, while the structured
report serializes every result's findings slot unchanged — the textual
10-item truncation never reaches the total or the serialized form. -/
theorem c7_total_and_untruncated_serialization (results : List ScanResult) (path : String)
    (h : ∀ r ∈ results, r.success = true → ∃ xs, r.findings = Json.arr xs) :
    (∃ ls, formatReportLines results = .ok (ls, successTotal results)
      ∧ ("Total findings: " ++ toString (successTotal results)) ∈ ls)
    ∧ (∀ r ∈ results, jsonField (serializeResult r) "findings" = some r.findings)
    ∧ jsonField (serializeReport path results) "results" =
        some (Json.arr (results.map serializeResult)) := by
  refine ⟨?_, fun r hr => rfl, rfl⟩
  obtain ⟨ls, hls⟩ := reportFold_total results h
  refine ⟨[eq60, "Security Scan Report", eq60, ""] ++ ls
    ++ [eq60, "Total findings: " ++ toString (successTotal results), eq60], ?_, ?_⟩
  · simp only [formatReportLines, hls]
  · simp

theorem c7_witness :
    (∃ ls, formatReportLines [⟨"bandit", true, Json.arr [Json.num 1, Json.num 2], none⟩,
        ⟨"safety", false, Json.arr [], some "x"⟩] =
      .ok (ls, successTotal [⟨"bandit", true, Json.arr [Json.num 1, Json.num 2], none⟩,
        ⟨"safety", false, Json.arr [], some "x"⟩])
      ∧ ("Total findings: " ++ toString (successTotal
          [⟨"bandit", true, Json.arr [Json.num 1, Json.num 2], none⟩,
           ⟨"safety", false, Json.arr [], some "x"⟩])) ∈ ls)
    ∧ (∀ r ∈ [(⟨"bandit", true, Json.arr [Json.num 1, Json.num 2], none⟩ : ScanResult),
        ⟨"safety", false, Json.arr [], some "x"⟩],
        jsonField (serializeResult r) "findings" = some r.findings)
    ∧ jsonField (serializeReport "/proj" [⟨"bandit", true, Json.arr [Json.num 1, Json.num 2], none⟩,
        ⟨"safety", false, Json.arr [], some "x"⟩]) "results" =
      some (Json.arr ([⟨"bandit", true, Json.arr [Json.num 1, Json.num 2], none⟩,
        (⟨"safety", false, Json.arr [], some "x"⟩ : ScanResult)].map serializeResult)) := by
  refine c7_total_and_untruncated_serialization _ "/proj" ?_
  intro r hr hs
  rcases List.mem_cons.mp hr with h1 | h1
  · exact ⟨[Json.num 1, Json.num 2], by rw [h1]⟩
  · rcases List.mem_cons.mp h1 with h2 | h2
    · rw [h2] at hs
      cases hs
    · exact absurd h2 (List.not_mem_nil r)

/-- C9: the result list carries one entry per configured tool in the fixed
source order, independent of every tool outcome — no skip cascades, no
reordering, each configured tool invoked exactly once — and the reporting
stage preserves each result's finding order: the serialized findings slot is
the normalized list itself and the textual block renders the take-10 prefix
in sequence. -/
theorem c9_invocation_and_order :
    (∀ (skip : List String) (oB oP oS oSec oB2 oP2 oS2 oSec2 : ProcOutcome),
      (gatherResults skip oB oP oS oSec).map ScanResult.tool =
        (gatherResults skip oB2 oP2 oS2 oSec2).map ScanResult.tool)
    ∧ (∀ (skip : List String) (oB oP oS oSec : ProcOutcome),
      ((gatherResults skip oB oP oS oSec).map ScanResult.tool).Sublist
        ["bandit", "pip-audit", "safety", "detect-secrets"])
    ∧ (∀ (oB oP oS oSec : ProcOutcome),
      (gatherResults [] oB oP oS oSec).map ScanResult.tool =
        ["bandit", "pip-audit", "safety", "detect-secrets"])
    ∧ (∀ (skip : List String) (oB oP oS oSec : ProcOutcome),
      ((gatherResults skip oB oP oS oSec).map ScanResult.tool).count "bandit" =
          (if "bandit" ∉ skip then 1 else 0)
        ∧ ((gatherResults skip oB oP oS oSec).map ScanResult.tool).count "pip-audit" =
          (if "pip-audit" ∉ skip then 1 else 0)
        ∧ ((gatherResults skip oB oP oS oSec).map ScanResult.tool).count "safety" =
          (if "safety" ∉ skip then 1 else 0)
        ∧ ((gatherResults skip oB oP oS oSec).map ScanResult.tool).count "detect-secrets" =
          (if "secrets" ∉ skip then 1 else 0))
    ∧ (∀ r : ScanResult, jsonField (serializeResult r) "findings" = some r.findings)
    ∧ (∀ (r : ScanResult) (xs : List Json),
        r.success = true → r.findings = Json.arr xs → xs ≠ [] →
        resultBlock r = .ok (["## " ++ pyStrUpper r.tool, dash40,
            "Found " ++ toString xs.length ++ " issue(s):"]
          ++ findingEntryLines (xs.take 10)
          ++ (if 10 < xs.length then ["  ... and " ++ toString (xs.length - 10) ++ " more"] else [])
          ++ [""], xs.length)) := by
  refine ⟨?_, ?_, ?_, ?_, fun r => rfl, resultBlock_success_arr⟩
  · intro skip oB oP oS oSec oB2 oP2 oS2 oSec2
    rw [gatherResults_map_tool, gatherResults_map_tool]
  · intro skip oB oP oS oSec
    rw [gatherResults_map_tool]
    by_cases h1 : "bandit" ∈ skip <;> by_cases h2 : "pip-audit" ∈ skip <;>
      by_cases h3 : "safety" ∈ skip <;> by_cases h4 : "secrets" ∈ skip <;>
      simp [h1, h2, h3, h4]
  · intro oB oP oS oSec
    rw [gatherResults_map_tool]
    decide
  · intro skip oB oP oS oSec
    rw [gatherResults_map_tool]
    by_cases h1 : "bandit" ∈ skip <;> by_cases h2 : "pip-audit" ∈ skip <;>
      by_cases h3 : "safety" ∈ skip <;> by_cases h4 : "secrets" ∈ skip <;>
      simp [h1, h2, h3, h4]

theorem c9_witness :
    (gatherResults ["safety"] .notFound .notFound .notFound .notFound).map ScanResult.tool =
      (gatherResults ["safety"] (.execError "x") (.completed 0 RawOut.empty "")
        (.completed 1 RawOut.empty "") .notFound).map ScanResult.tool
    ∧ ((gatherResults ["safety"] .notFound .notFound .notFound .notFound).map
        ScanResult.tool).Sublist ["bandit", "pip-audit", "safety", "detect-secrets"]
    ∧ ((gatherResults ["safety"] .notFound .notFound .notFound .notFound).map
        ScanResult.tool).count "safety" = (if "safety" ∉ ["safety"] then 1 else 0)
    ∧ resultBlock ⟨"pip-audit", true, Json.arr [Json.num 7], none⟩ =
      .ok (["## " ++ pyStrUpper "pip-audit", dash40,
          "Found " ++ toString [Json.num 7].length ++ " issue(s):"]
        ++ findingEntryLines ([Json.num 7].take 10)
        ++ (if 10 < [Json.num 7].length then
              ["  ... and " ++ toString ([Json.num 7].length - 10) ++ " more"] else [])
        ++ [""], [Json.num 7].length) :=
  ⟨c9_invocation_and_order.1 ["safety"] .notFound .notFound .notFound .notFound
      (.execError "x") (.completed 0 RawOut.empty "") (.completed 1 RawOut.empty "") .notFound,
   c9_invocation_and_order.2.1 ["safety"] .notFound .notFound .notFound .notFound,
   (c9_invocation_and_order.2.2.2.1 ["safety"] .notFound .notFound .notFound .notFound).2.2.1,
   c9_invocation_and_order.2.2.2.2.2 ⟨"pip-audit", true, Json.arr [Json.num 7], none⟩
     [Json.num 7] rfl rfl (fun hx => List.noConfusion hx)⟩
